import Mathlib

/-!
# IdeaPops — formal model of the note store and UI state logic

A shallow embedding of the IdeaPops single-page note application:
the `Note` data model, date-scoped retrieval (`getNotesForDate`), the
modal/drawer state machine of the `App` component, and the `DailyStack`
cursor logic.  Each definition is translated directly from the
corresponding TypeScript source.  Randomness (`Math.random`) is modelled
by an explicit natural-number source `r`, a call `Math.floor(Math.random()*len)`
becoming `r % len`, so that properties quantified over "every possible
outcome of the random source" range over all `r : Nat`.  The clock
(`Date.now()`) is an explicit parameter `now : Nat`.  The cosmetic
`rotation` field (a JS float) is modelled as an `Int` since the claims
only concern its preservation, never its numeric value.
-/

namespace IdeaPops

/-- The fixed palette, `type NoteColor` from `types.ts`. -/
inductive NoteColor where
  | yellow
  | pink
  | blue
  | green
  | purple
  | orange
deriving DecidableEq, Repr

open NoteColor

/-- `const COLORS: NoteColor[]` from `App.tsx`. -/
def COLORS : List NoteColor := [yellow, pink, blue, green, purple, orange]

/-- `interface Note` from `types.ts`. -/
structure Note where
  id : String
  content : String
  /-- ISO date string `YYYY-MM-DD`. -/
  date : String
  timestamp : Nat
  color : NoteColor
  rotation : Int
deriving DecidableEq, Repr

/-- A JS `Date` value, reduced to the local calendar fields the program
reads: `getFullYear()`, `getMonth() + 1`, `getDate()`. -/
structure LDate where
  year : Nat
  month : Nat
  day : Nat
deriving DecidableEq, Repr

/-- `String(x).padStart(2, '0')` as used on month and day numbers. -/
def padStart2 (s : String) : String :=
  if s.length = 0 then "00" else if s.length = 1 then "0" ++ s else s

/-- `toISODateString` from `App.tsx`: builds the local `YYYY-MM-DD`
string from the date's local calendar fields. -/
def toISODateString (d : LDate) : String :=
  toString d.year ++ "-" ++ padStart2 (toString d.month) ++ "-" ++ padStart2 (toString d.day)

/-- JS `String.prototype.trim()`: strips leading and trailing whitespace.
Modelled over the string's character list with `Char.isWhitespace`. -/
def jsTrim (s : String) : String :=
  String.mk (((s.data.dropWhile Char.isWhitespace).reverse.dropWhile Char.isWhitespace).reverse)

/-- The comparator `(a, b) => b.timestamp - a.timestamp` of
`Array.prototype.sort`, as the relation "`a` may come before `b`":
descending by timestamp, ties allowed either way. -/
def tsDesc (a b : Note) : Prop := b.timestamp ≤ a.timestamp

instance : DecidableRel tsDesc := fun a b => Nat.decLe b.timestamp a.timestamp

instance : IsTotal Note tsDesc := ⟨fun a b => Nat.le_total b.timestamp a.timestamp⟩

instance : IsTrans Note tsDesc := ⟨fun _ _ _ hab hbc => Nat.le_trans hbc hab⟩

/-- `getNotesForDate` from `App.tsx`:
`notes.filter(n => n.date === dateStr).sort((a, b) => b.timestamp - a.timestamp)`.
`Array.prototype.sort` is stable (ES2019), so it is modelled by the
stable `List.insertionSort`. -/
def getNotesForDate (d : LDate) (notes : List Note) : List Note :=
  List.insertionSort tsDesc (notes.filter fun n => n.date == toISODateString d)

/-- The two top-level views of the `App` component. -/
inductive View where
  | daily
  | calendar
deriving DecidableEq, Repr

/-- The `useState` cells of the `App` component, gathered into one record. -/
structure AppState where
  view : View
  isGridMode : Bool
  currentDate : LDate
  notes : List Note
  isModalOpen : Bool
  isDrawerOpen : Bool
  isDeleteConfirmOpen : Bool
  actionNote : Option Note
  editingNoteId : Option String
  newNoteContent : String
  newNoteColor : NoteColor
deriving DecidableEq, Repr

/-- `getRandomColor` from `App.tsx`.  The random draw
`Math.floor(Math.random() * len)` is modelled by `r % len` for an
arbitrary source value `r : Nat`, so every index of the candidate list
is a possible outcome. -/
def getRandomColor (excludeColor : Option NoteColor) (r : Nat) : NoteColor :=
  let availableColors := match excludeColor with
    | some c => COLORS.filter fun x => x != c
    | none => COLORS
  if h : availableColors.length = 0 then
    COLORS.get ⟨r % COLORS.length, Nat.mod_lt _ (by decide)⟩
  else
    availableColors.get ⟨r % availableColors.length, Nat.mod_lt _ (Nat.pos_of_ne_zero h)⟩

/-- `openNewNoteModal` from `App.tsx`: clears the buffer, picks a random
color excluding the color of `currentDayNotes[0]` when that list is
non-empty, clears the edit target and opens the modal. -/
def openNewNoteModal (s : AppState) (r : Nat) : AppState :=
  let currentDayNotes := getNotesForDate s.currentDate s.notes
  let lastNoteColor : Option NoteColor := match currentDayNotes with
    | [] => none
    | n :: _ => some n.color
  { s with newNoteContent := ""
           newNoteColor := getRandomColor lastNoteColor r
           editingNoteId := none
           isModalOpen := true }

/-- `handleSaveNote` from `App.tsx`.  `now` is the value of `Date.now()`
(the two calls in the object literal are modelled as a single instant)
and `rot` the freshly drawn random rotation.  An empty-trim buffer is
rejected with no state change; otherwise in edit mode the matching
note's content is replaced, in create mode a new note is prepended. -/
def handleSaveNote (s : AppState) (now : Nat) (rot : Int) : AppState :=
  if jsTrim s.newNoteContent = "" then s
  else
    let notes' := match s.editingNoteId with
      | some eid =>
          s.notes.map fun n =>
            if n.id = eid then { n with content := s.newNoteContent } else n
      | none =>
          { id := toString now
            content := s.newNoteContent
            date := toISODateString s.currentDate
            timestamp := now
            color := s.newNoteColor
            rotation := rot } :: s.notes
    { s with notes := notes'
             newNoteContent := ""
             editingNoteId := none
             isModalOpen := false }

/-- `handleLongPressNote` from `App.tsx`. -/
def handleLongPressNote (s : AppState) (note : Note) : AppState :=
  { s with actionNote := some note, isDrawerOpen := true }

/-- `handleEditAction` from `App.tsx`. -/
def handleEditAction (s : AppState) : AppState :=
  match s.actionNote with
  | some a =>
      { s with newNoteContent := a.content
               newNoteColor := a.color
               editingNoteId := some a.id
               isDrawerOpen := false
               isModalOpen := true }
  | none => s

/-- `handleDeleteAction` from `App.tsx`. -/
def handleDeleteAction (s : AppState) : AppState :=
  { s with isDrawerOpen := false, isDeleteConfirmOpen := true }

/-- `confirmDelete` from `App.tsx`: filters out every note whose id
equals the action target's id, closes the confirmation and clears the
target. -/
def confirmDelete (s : AppState) : AppState :=
  let notes' := match s.actionNote with
    | some a => s.notes.filter fun n => n.id != a.id
    | none => s.notes
  { s with notes := notes', isDeleteConfirmOpen := false, actionNote := none }

/-- The "Keep It" button and the confirmation backdrop both run only
`setIsDeleteConfirmOpen(false)` (`App.tsx`). -/
def keepDelete (s : AppState) : AppState :=
  { s with isDeleteConfirmOpen := false }

/-- The action-drawer backdrop runs only `setIsDrawerOpen(false)`
(`App.tsx`). -/
def dismissDrawer (s : AppState) : AppState :=
  { s with isDrawerOpen := false }

/-- The editor modal's X button and backdrop run only
`setIsModalOpen(false)` (`App.tsx`). -/
def closeModal (s : AppState) : AppState :=
  { s with isModalOpen := false }

/-- `handleVisibilityChange` from `App.tsx`: on becoming visible,
compare the local `YYYY-MM-DD` strings of the real-world current date
and the selected date; on any difference select today, otherwise keep
the previous date.  Hidden-state events change nothing. -/
def handleVisibilityChange (visible : Bool) (today : LDate) (s : AppState) : AppState :=
  if visible then
    if toISODateString today ≠ toISODateString s.currentDate
    then { s with currentDate := today }
    else s
  else s

/-- `handleDateChange` from `App.tsx`. -/
def handleDateChange (s : AppState) (d : LDate) : AppState :=
  { s with currentDate := d, view := .daily, isGridMode := false }

/-- `handleViewSwitch` from `App.tsx`. -/
def handleViewSwitch (s : AppState) (v : View) : AppState :=
  { s with view := v
           isGridMode := if v = .calendar then false else s.isGridMode }

/-- `toggleGridMode` from `App.tsx`. -/
def toggleGridMode (s : AppState) : AppState :=
  { s with isGridMode := !s.isGridMode }

/-- The user intents the rendering layer can emit (spec §6), each wired
to the corresponding `App.tsx` handler by `step`. -/
inductive Event where
  | openNewNote (r : Nat)
  | setContent (text : String)
  | saveNote (now : Nat) (rot : Int)
  | closeModal
  | longPress (n : Note)
  | editAction
  | deleteAction
  | confirmDel
  | keepDel
  | dismissDrawer
  | visibility (visible : Bool) (today : LDate)
  | selectDate (d : LDate)
  | switchView (v : View)
  | toggleGrid

/-- Event dispatch: one UI event processed by its `App.tsx` handler. -/
def step (e : Event) (s : AppState) : AppState :=
  match e with
  | .openNewNote r => openNewNoteModal s r
  | .setContent text => { s with newNoteContent := text }
  | .saveNote now rot => handleSaveNote s now rot
  | .closeModal => closeModal s
  | .longPress n => handleLongPressNote s n
  | .editAction => handleEditAction s
  | .deleteAction => handleDeleteAction s
  | .confirmDel => confirmDelete s
  | .keepDel => keepDelete s
  | .dismissDrawer => dismissDrawer s
  | .visibility v today => handleVisibilityChange v today s
  | .selectDate d => handleDateChange s d
  | .switchView v => handleViewSwitch s v
  | .toggleGrid => toggleGridMode s

/-- The `useState` initial values of `App.tsx`, with the mount-time
`new Date()` as parameter `d`.  Persistence is modelled as the identity
round trip of spec §8, so a session starts from the empty collection. -/
def initState (d : LDate) : AppState :=
  { view := .daily
    isGridMode := false
    currentDate := d
    notes := []
    isModalOpen := false
    isDrawerOpen := false
    isDeleteConfirmOpen := false
    actionNote := none
    editingNoteId := none
    newNoteContent := ""
    newNoteColor := .yellow }

/-- States reachable from a fresh mount by any sequence of UI events. -/
inductive Reachable : AppState → Prop where
  | init (d : LDate) : Reachable (initState d)
  | next (e : Event) {s : AppState} (h : Reachable s) : Reachable (step e s)

/-! ## The `DailyStack` component (`DailyStack.tsx`) -/

/-- `activeIndex = currentIndex % notes.length`. -/
def stackActiveIndex (notes : List Note) (currentIndex : Nat) : Nat :=
  currentIndex % notes.length

/-- `nextIndex = (currentIndex + 1) % notes.length`. -/
def stackNextIndex (notes : List Note) (currentIndex : Nat) : Nat :=
  (currentIndex + 1) % notes.length

/-- `activeNote = notes[activeIndex]`; the component early-returns the
empty placeholder when `notes.length === 0`, modelled as `none`. -/
def stackActiveNote (notes : List Note) (currentIndex : Nat) : Option Note :=
  if notes.length = 0 then none else notes[stackActiveIndex notes currentIndex]?

/-- `nextNote = notes[nextIndex]`, `none` on the empty early-return. -/
def stackNextNote (notes : List Note) (currentIndex : Nat) : Option Note :=
  if notes.length = 0 then none else notes[stackNextIndex notes currentIndex]?

/-- `handleDragEnd` from `DailyStack.tsx`: when the horizontal
displacement exceeds the threshold 100, record the direction sign and
increment the cursor; otherwise leave both unchanged.  The float
`info.offset.x` is modelled as an `Int`. -/
def handleDragEnd (offsetX : Int) (currentIndex : Nat) (direction : Int) : Nat × Int :=
  if 100 < offsetX.natAbs then
    (currentIndex + 1, if 0 < offsetX then 1 else -1)
  else
    (currentIndex, direction)

/-! ## Content invariant (claim C2) -/

/-- Every note in the list has content whose trim is non-empty. -/
def notesContentInv (l : List Note) : Prop := ∀ n ∈ l, jsTrim n.content ≠ ""

/-- A reachable state whose store holds a note with untrimmed content:
open the create modal, type `" hi "`, save at instant 1. -/

def c2State : AppState :=
  step (.saveNote 1 0) (step (.setContent " hi ") (step (.openNewNote 0) (initState ⟨2024, 1, 1⟩)))

/-- A state with a whitespace-only buffer, reachable by typing `" "`. -/
def c2WitState : AppState := step (.setContent " ") (initState ⟨2024, 1, 1⟩)

/-! ## Deletion (claims C3, C4) -/

/-- A note with id `"1"`. -/
def noteA : Note :=
  { id := "1", content := "a", date := "2024-01-01", timestamp := 1, color := .yellow, rotation := 0 }

/-- A second, distinct note that shares the id `"1"`. -/
def noteB : Note :=
  { id := "1", content := "b", date := "2024-01-01", timestamp := 1, color := .pink, rotation := 0 }

/-- A store holding two notes with the same id, with a pending
confirmed delete targeting one of them.  (Duplicate ids are reachable:
see the claim C4 theorem.) -/
def c3State : AppState :=
  { initState ⟨2024, 1, 1⟩ with
      notes := [noteB, noteA]
      actionNote := some noteA
      isDeleteConfirmOpen := true }

/-- A note with the unique id `"5"`. -/
def noteC : Note :=
  { id := "5", content := "c", date := "2024-01-01", timestamp := 5, color := .blue, rotation := 0 }

/-- A one-note store with a pending confirmed delete on that note. -/
def c3WitState : AppState :=
  { initState ⟨2024, 1, 1⟩ with
      notes := [noteC]
      actionNote := some noteC
      isDeleteConfirmOpen := true }

/-- The event sequence: create a note `"a"` at instant 1000, then
create a second note `"b"` at the same instant 1000. -/
def c4State : AppState :=
  step (.saveNote 1000 0) (step (.setContent "b") (step (.openNewNote 0)
    (step (.saveNote 1000 0) (step (.setContent "a") (step (.openNewNote 0)
      (initState ⟨2024, 1, 1⟩))))))

/-- A one-note store in edit mode for the stored note's id. -/
def c5State : AppState :=
  { initState ⟨2024, 1, 1⟩ with
      notes := [noteC]
      isModalOpen := true
      editingNoteId := some "5"
      newNoteContent := "new text" }

/-- A store in edit mode whose edit target id is absent. -/
def c10State : AppState :=
  { initState ⟨2024, 1, 1⟩ with
      notes := [noteC]
      isModalOpen := true
      editingNoteId := some "77"
      newNoteContent := "orphan edit" }

/-- A one-note store on the selected day, used for the C6 witness. -/
def c6State : AppState :=
  { initState ⟨2024, 1, 1⟩ with
      notes := [{ id := "3", content := "x", date := "2024-01-01", timestamp := 3,
                  color := .yellow, rotation := 0 }] }

/-! ## Dismissing the action flow (claim C9) -/

/-- A state with the delete confirmation open on target `noteC`. -/
def c9State : AppState :=
  { initState ⟨2024, 1, 1⟩ with
      notes := [noteC]
      actionNote := some noteC
      isDeleteConfirmOpen := true }

/-! ## Lemmas about the stable timestamp sort -/

/-- Inserting a note into a list keeps the timestamp-`t` sublist intact,
with the inserted note first exactly when it carries timestamp `t`:
`orderedInsert` places `x` before precisely the suffix of notes whose
timestamps do not exceed `x`'s. -/
theorem filter_ts_orderedInsert (t : Nat) (x : Note) (l : List Note) :
    (List.orderedInsert tsDesc x l).filter (fun n => n.timestamp == t)
      = if x.timestamp == t
        then x :: l.filter (fun n => n.timestamp == t)
        else l.filter (fun n => n.timestamp == t) := by
  induction l with
  | nil => simp [List.orderedInsert, List.filter_cons]
  | cons b l ih =>
    by_cases hxb : tsDesc x b
    · simp only [List.orderedInsert, if_pos hxb, List.filter_cons]
    · simp only [List.orderedInsert, if_neg hxb, List.filter_cons, ih]
      by_cases hxt : (x.timestamp == t) = true
      · have hx : x.timestamp = t := by simpa using hxt
        have hlt : ¬ b.timestamp ≤ x.timestamp := hxb
        have hb : (b.timestamp == t) = false := by
          simp only [beq_eq_false_iff_ne, ne_eq]
          omega
        simp [hxt, hb]
      · simp [hxt]

/-- The stable sort does not reorder notes that share a timestamp. -/
theorem filter_ts_insertionSort (t : Nat) (l : List Note) :
    (List.insertionSort tsDesc l).filter (fun n => n.timestamp == t)
      = l.filter (fun n => n.timestamp == t) := by
  induction l with
  | nil => rfl
  | cons b l ih =>
    simp only [List.insertionSort, filter_ts_orderedInsert, List.filter_cons]
    by_cases hbt : (b.timestamp == t) = true
    · simp [hbt, ih]
    · simp [hbt, ih]

/-- Claim C1: for every store contents and every date `d`,
`notesForDate(d)` returns exactly those notes whose `date` field equals
the canonical `YYYY-MM-DD` string of `d` (a permutation of that filter),
sorted by `timestamp` descending, and notes with equal timestamps keep
their original insertion order: for each timestamp value `t`, the
timestamp-`t` notes of the result are the timestamp-`t` notes of the
store in store order (the sort is stable). -/
theorem C1_notesForDate_filter_sorted_stable (notes : List Note) (d : LDate) :
    (getNotesForDate d notes).Perm
        (notes.filter fun n => n.date == toISODateString d) ∧
    (getNotesForDate d notes).Pairwise (fun a b => b.timestamp ≤ a.timestamp) ∧
    ∀ t : Nat,
      (getNotesForDate d notes).filter (fun n => n.timestamp == t)
        = notes.filter (fun n => n.date == toISODateString d && n.timestamp == t) := by
  refine ⟨List.perm_insertionSort _ _, List.sorted_insertionSort tsDesc _, fun t => ?_⟩
  rw [getNotesForDate, filter_ts_insertionSort, List.filter_filter]
  exact List.filter_congr fun x _ => by rw [Bool.and_comm]

/-- Saving preserves the trim-non-empty content invariant: the guard
rejects empty-trim buffers, and both branches only install the buffer
as a content. -/
theorem handleSaveNote_contentInv (s : AppState) (now : Nat) (rot : Int)
    (h : notesContentInv s.notes) :
    notesContentInv (handleSaveNote s now rot).notes := by
  unfold handleSaveNote
  by_cases hb : jsTrim s.newNoteContent = ""
  · rw [if_pos hb]; exact h
  · rw [if_neg hb]
    cases he : s.editingNoteId with
    | none =>
      simp only [he]
      intro n hn
      rcases List.mem_cons.mp hn with hx | hx
      · rw [hx]; exact hb
      · exact h n hx
    | some eid =>
      simp only [he]
      intro n hn
      rcases List.mem_map.mp hn with ⟨m, hm, rfl⟩
      by_cases hid : m.id = eid
      · rw [if_pos hid]; exact hb
      · rw [if_neg hid]; exact h m hm

/-- Deleting preserves the content invariant (the result is a sublist). -/
theorem confirmDelete_contentInv (s : AppState) (h : notesContentInv s.notes) :
    notesContentInv (confirmDelete s).notes := by
  unfold confirmDelete
  cases ha : s.actionNote with
  | none => simp only [ha]; exact h
  | some a =>
    simp only [ha]
    intro n hn
    exact h n (List.mem_of_mem_filter hn)

/-- Every UI event preserves the content invariant. -/
theorem step_contentInv (e : Event) (s : AppState) (h : notesContentInv s.notes) :
    notesContentInv (step e s).notes := by
  cases e with
  | saveNote now rot => exact handleSaveNote_contentInv s now rot h
  | confirmDel => exact confirmDelete_contentInv s h
  | editAction =>
    show notesContentInv (handleEditAction s).notes
    unfold handleEditAction
    cases ha : s.actionNote with
    | none => exact h
    | some a => exact h
  | openNewNote r => exact h
  | setContent text => exact h
  | closeModal => exact h
  | longPress n => exact h
  | deleteAction => exact h
  | keepDel => exact h
  | dismissDrawer => exact h
  | visibility v today =>
    show notesContentInv (handleVisibilityChange v today s).notes
    unfold handleVisibilityChange
    cases v with
    | false => exact h
    | true =>
      by_cases hd : toISODateString today ≠ toISODateString s.currentDate
      · rw [if_pos rfl, if_pos hd]; exact h
      · rw [if_pos rfl, if_neg hd]; exact h
  | selectDate d => exact h
  | switchView v => exact h
  | toggleGrid => exact h

/-- The content invariant holds in every reachable state. -/
theorem reachable_contentInv (s : AppState) (h : Reachable s) :
    notesContentInv s.notes := by
  induction h with
  | init d => intro n hn; simp [initState] at hn
  | next e h ih => exact step_contentInv e _ ih

/-- Claim C2 is false as stated: the save handler stores the buffer
verbatim, without trimming.  After saving the buffer `" hi "` the store
holds a note whose content `" hi "` is not equal to its own trim
`"hi"`. -/
theorem C2_counterexample_content_not_trimmed :
    (c2State.notes.map fun n => n.content) = [" hi "] ∧
    (c2State.notes.all fun n => jsTrim n.content == n.content) = false := by
  decide

/-- Claim C2, amended: in every reachable state, every note's content
trims to a non-empty string (the content itself may carry surrounding
whitespace, stored verbatim from the buffer), and a save whose buffer
trims to the empty string is rejected: the state is unchanged. -/
theorem C2_amended_trim_nonempty (s : AppState) (hs : Reachable s)
    (now : Nat) (rot : Int) :
    (s.notes.all fun n => jsTrim n.content != "") = true ∧
    (jsTrim s.newNoteContent = "" → handleSaveNote s now rot = s) := by
  constructor
  · rw [List.all_eq_true]
    intro n hn
    simpa [bne_iff_ne] using reachable_contentInv s hs n hn
  · intro hb
    unfold handleSaveNote
    rw [if_pos hb]

/-- Witness for the amended claim C2 at a concrete reachable state. -/
theorem C2_amended_trim_nonempty_witness :
    (c2WitState.notes.all fun n => jsTrim n.content != "") = true ∧
    handleSaveNote c2WitState 7 0 = c2WitState := by
  have h := C2_amended_trim_nonempty c2WitState
    (Reachable.next (.setContent " ") (Reachable.init ⟨2024, 1, 1⟩)) 7 0
  exact ⟨h.1, h.2 (by decide)⟩

/-- Claim C3 is false as stated over every store contents: when two
notes share the target's id, the confirmed delete removes both of them
(`filter(n => n.id !== actionNote.id)` drops every match), not exactly
one: here the store shrinks from 2 notes to 0. -/
theorem C3_counterexample_removes_both :
    c3State.notes.length = 2 ∧
    (c3State.notes.any fun n => n.id == "1") = true ∧
    (confirmDelete c3State).notes.length = 0 := by
  decide

/-- In a list with pairwise-distinct ids, dropping the notes that share
`t`'s id removes exactly one entry when a match exists. -/
theorem filter_ne_id_length (t : Note) (l : List Note)
    (hnd : (l.map fun n => n.id).Nodup) (x : Note) (hx : x ∈ l) (hid : x.id = t.id) :
    (l.filter fun n => n.id != t.id).length + 1 = l.length := by
  induction l with
  | nil => cases hx
  | cons b l ih =>
    rw [List.map_cons, List.nodup_cons] at hnd
    rcases List.mem_cons.mp hx with rfl | hxl
    · have hb : (x.id != t.id) = false := by simp [hid]
      have hrest : ∀ n ∈ l, (n.id != t.id) = true := by
        intro n hn
        simp only [bne_iff_ne, ne_eq]
        intro hh
        apply hnd.1
        have hnx : n.id = x.id := hh.trans hid.symm
        rw [← hnx]
        exact List.mem_map_of_mem _ hn
      rw [List.filter_cons, hb]
      simp only [Bool.false_eq_true, if_false]
      rw [List.filter_eq_self.mpr hrest]
      simp
    · have hbne : (b.id != t.id) = true := by
        simp only [bne_iff_ne, ne_eq]
        intro hh
        apply hnd.1
        rw [hh, ← hid]
        exact List.mem_map_of_mem _ hxl
      rw [List.filter_cons, hbne]
      simp only [if_true, List.length_cons]
      rw [Nat.add_right_cancel_iff]
      exact ih hnd.2 hxl

/-- Claim C3, amended: under the store invariant that ids are pairwise
distinct, a confirmed delete with target `t` removes exactly one entry
when some note carries `t`'s id — the result is the original list with
precisely the matching note dropped and all others unchanged in place —
and is a no-op on the store when no note carries that id. -/
theorem C3_amended_delete_unique (s : AppState) (t : Note)
    (ht : s.actionNote = some t)
    (hnd : (s.notes.map fun n => n.id).Nodup) :
    ((∃ n ∈ s.notes, n.id = t.id) →
        (confirmDelete s).notes = s.notes.filter (fun n => n.id != t.id) ∧
        (confirmDelete s).notes.length + 1 = s.notes.length) ∧
    ((∀ n ∈ s.notes, n.id ≠ t.id) → (confirmDelete s).notes = s.notes) := by
  unfold confirmDelete
  simp only [ht]
  constructor
  · rintro ⟨x, hx, hid⟩
    exact ⟨by trivial, filter_ne_id_length t s.notes hnd x hx hid⟩
  · intro hall
    apply List.filter_eq_self.mpr
    intro n hn
    simpa [bne_iff_ne] using hall n hn

/-- Witness for the amended claim C3 at a concrete store. -/
theorem C3_amended_delete_unique_witness :
    (confirmDelete c3WitState).notes = c3WitState.notes.filter (fun n => n.id != noteC.id) ∧
    (confirmDelete c3WitState).notes.length + 1 = c3WitState.notes.length :=
  (C3_amended_delete_unique c3WitState noteC rfl (by decide)).1 ⟨noteC, by decide, rfl⟩

/-- Claim C4: the code violates id uniqueness.  `id` is assigned as
`Date.now().toString()`, so two note creations at the same clock
instant produce the same id: after the event sequence above — reachable
from a fresh mount — the store holds two notes both with id `"1000"`,
and the id list is not pairwise distinct. -/
theorem C4_code_bug_duplicate_ids :
    Reachable c4State ∧
    (c4State.notes.map fun n => n.id) = ["1000", "1000"] ∧
    ¬ (c4State.notes.map fun n => n.id).Nodup := by
  refine ⟨?_, by decide, by decide⟩
  exact Reachable.next _ (Reachable.next _ (Reachable.next _ (Reachable.next _
    (Reachable.next _ (Reachable.next _ (Reachable.init _))))))

/-! ## Editing (claims C5, C10) -/

/-- Claim C5: saving in edit mode changes only the matching note's
content.  The store keeps its length, and position by position: the
note keeps its `id`, `date`, `timestamp`, `color` and `rotation`; the
note whose id is the edit target gets the buffer as content, every
other note also keeps its content (is unchanged). -/
theorem C5_edit_changes_only_content (s : AppState) (now : Nat) (rot : Int)
    (eid : String) (h1 : s.editingNoteId = some eid)
    (h2 : jsTrim s.newNoteContent ≠ "") :
    (handleSaveNote s now rot).notes.length = s.notes.length ∧
    ∀ i : Nat, ∀ n : Note, s.notes[i]? = some n →
      ∃ n' : Note, (handleSaveNote s now rot).notes[i]? = some n' ∧
        n'.id = n.id ∧ n'.date = n.date ∧ n'.timestamp = n.timestamp ∧
        n'.color = n.color ∧ n'.rotation = n.rotation ∧
        (n.id = eid → n'.content = s.newNoteContent) ∧
        (n.id ≠ eid → n'.content = n.content) := by
  unfold handleSaveNote
  rw [if_neg h2]
  simp only [h1]
  constructor
  · exact List.length_map s.notes _
  · intro i n hn
    refine ⟨if n.id = eid then { n with content := s.newNoteContent } else n, ?_, ?_⟩
    · rw [List.getElem?_map, hn, Option.map_some']
    · by_cases hid : n.id = eid <;> simp [hid]

/-- Witness for claim C5 at a concrete state: editing note `"5"`. -/
theorem C5_edit_changes_only_content_witness :
    (handleSaveNote c5State 9 0).notes.length = c5State.notes.length ∧
    ∀ i : Nat, ∀ n : Note, c5State.notes[i]? = some n →
      ∃ n' : Note, (handleSaveNote c5State 9 0).notes[i]? = some n' ∧
        n'.id = n.id ∧ n'.date = n.date ∧ n'.timestamp = n.timestamp ∧
        n'.color = n.color ∧ n'.rotation = n.rotation ∧
        (n.id = "5" → n'.content = c5State.newNoteContent) ∧
        (n.id ≠ "5" → n'.content = n.content) :=
  C5_edit_changes_only_content c5State 9 0 "5" rfl (by decide)

/-- Claim C10: a save in edit mode whose target id is absent from the
store leaves the store unchanged, yet still closes the modal and clears
the buffer and the edit target. -/
theorem C10_edit_absent_id_noop (s : AppState) (now : Nat) (rot : Int)
    (eid : String) (h1 : s.editingNoteId = some eid)
    (h2 : jsTrim s.newNoteContent ≠ "")
    (h3 : ∀ n ∈ s.notes, n.id ≠ eid) :
    (handleSaveNote s now rot).notes = s.notes ∧
    (handleSaveNote s now rot).isModalOpen = false ∧
    (handleSaveNote s now rot).newNoteContent = "" ∧
    (handleSaveNote s now rot).editingNoteId = none := by
  unfold handleSaveNote
  rw [if_neg h2]
  simp only [h1]
  refine ⟨?_, by trivial, by trivial, by trivial⟩
  show s.notes.map _ = s.notes
  exact (List.map_congr_left fun n hn => by rw [if_neg (h3 n hn)]).trans
    (List.map_id' s.notes)

/-- Witness for claim C10 at a concrete state: the edit target `"77"`
matches no stored note. -/
theorem C10_edit_absent_id_noop_witness :
    (handleSaveNote c10State 9 0).notes = c10State.notes ∧
    (handleSaveNote c10State 9 0).isModalOpen = false ∧
    (handleSaveNote c10State 9 0).newNoteContent = "" ∧
    (handleSaveNote c10State 9 0).editingNoteId = none :=
  C10_edit_absent_id_noop c10State 9 0 "77" rfl (by decide)
    (by intro n hn; fin_cases hn; decide)

/-! ## Random color selection (claim C6) -/

/-- With the six-color palette, excluding one color always leaves a
non-empty candidate list, so the fallback branch is unreachable and the
pick always differs from the excluded color, whatever the random source
yields. -/
theorem getRandomColor_ne (c : NoteColor) (r : Nat) :
    getRandomColor (some c) r ≠ c := by
  have hlen : (COLORS.filter fun x => x != c).length ≠ 0 := by
    cases c <;> decide
  have hmem : getRandomColor (some c) r ∈ COLORS.filter fun x => x != c := by
    unfold getRandomColor
    simp only
    rw [dif_neg hlen]
    exact List.get_mem _ _ _
  have hprop := (List.mem_filter.mp hmem).2
  simpa [bne_iff_ne] using hprop

/-- Claim C6: when the create-note modal is opened while the selected
date already has at least one note, the randomly chosen initial color
differs from the color of the most-recently-created note on that date
(the head of the timestamp-descending day list), for every possible
outcome `r` of the random source.  (With the six-entry palette the
single-entry fallback of the code is unreachable.) -/
theorem C6_new_color_differs (s : AppState) (r : Nat) (n : Note) (rest : List Note)
    (h : getNotesForDate s.currentDate s.notes = n :: rest) :
    (openNewNoteModal s r).newNoteColor ≠ n.color := by
  unfold openNewNoteModal
  simp only [h]
  exact getRandomColor_ne n.color r

/-- Witness for claim C6 at a concrete store and random outcome. -/
theorem C6_new_color_differs_witness :
    (openNewNoteModal c6State 0).newNoteColor ≠ NoteColor.yellow :=
  C6_new_color_differs c6State 0
    { id := "3", content := "x", date := "2024-01-01", timestamp := 3,
      color := .yellow, rotation := 0 } [] (by decide)

/-! ## Visibility day-rollover (claim C7) -/

/-- Claim C7 is false as stated: with the selected date 2024-03-05
lying in the future of the real-world day 2024-03-01, the local day has
not advanced past the selection, so the claim demands no change; but
the handler compares the two `YYYY-MM-DD` strings with `!==` and resets
the selection to today on any difference. -/
theorem C7_counterexample_future_reset :
    (handleVisibilityChange true ⟨2024, 3, 1⟩ (initState ⟨2024, 3, 5⟩)).currentDate
        = ⟨2024, 3, 1⟩ ∧
    (⟨2024, 3, 1⟩ : LDate) ≠ ⟨2024, 3, 5⟩ := by
  decide

/-- Claim C7, amended: on a foreground-visibility event the selected
date is set to the real-world current day exactly when the two local
`YYYY-MM-DD` calendar-date strings differ — whether today is ahead of
or behind the selection — and is unchanged when the strings are equal;
the comparison is between local calendar-date strings, never raw
timestamps.  The note store is untouched, and a non-visible transition
changes nothing. -/
theorem C7_amended_visibility (today : LDate) (s : AppState) :
    (toISODateString today = toISODateString s.currentDate →
        handleVisibilityChange true today s = s) ∧
    (toISODateString today ≠ toISODateString s.currentDate →
        (handleVisibilityChange true today s).currentDate = today ∧
        (handleVisibilityChange true today s).notes = s.notes) ∧
    handleVisibilityChange false today s = s := by
  refine ⟨fun he => ?_, fun hne => ?_, rfl⟩
  · unfold handleVisibilityChange
    rw [if_pos rfl, if_neg (by simp [he])]
  · unfold handleVisibilityChange
    rw [if_pos rfl, if_pos hne]
    exact ⟨rfl, rfl⟩

/-- Witness for the amended claim C7: same-day re-foregrounding keeps
the state. -/
theorem C7_amended_visibility_witness :
    handleVisibilityChange true ⟨2024, 3, 1⟩ (initState ⟨2024, 3, 1⟩)
      = initState ⟨2024, 3, 1⟩ :=
  (C7_amended_visibility ⟨2024, 3, 1⟩ (initState ⟨2024, 3, 1⟩)).1 (by decide)

/-! ## Daily stack cursor (claim C8) -/

/-- Claim C8: for a day with at least one note and any cursor value
`c`, the active note is the element at `c mod count` and the preview
note the element at `(c+1) mod count` (both exist); a drag whose
displacement exceeds the threshold, in either direction, increments the
cursor by exactly one; with one note active and preview coincide; with
zero notes there is no active note (the component renders only the
empty placeholder, exposing no swipe or long-press surface). -/
theorem C8_stack_cursor (notes : List Note) (c : Nat) (x : Int) (dir : Int)
    (h : 1 ≤ notes.length) :
    stackActiveNote notes c = notes[c % notes.length]? ∧
    stackNextNote notes c = notes[(c + 1) % notes.length]? ∧
    (stackActiveNote notes c).isSome = true ∧
    (100 < x.natAbs → (handleDragEnd x c dir).1 = c + 1) ∧
    (notes.length = 1 → stackActiveNote notes c = stackNextNote notes c) ∧
    stackActiveNote [] c = none := by
  have hne : notes.length ≠ 0 := by omega
  refine ⟨?_, ?_, ?_, fun hx => ?_, fun h1 => ?_, rfl⟩
  · unfold stackActiveNote stackActiveIndex
    rw [if_neg hne]
  · unfold stackNextNote stackNextIndex
    rw [if_neg hne]
  · unfold stackActiveNote
    rw [if_neg hne]
    have hlt : stackActiveIndex notes c < notes.length :=
      Nat.mod_lt _ (Nat.pos_of_ne_zero hne)
    rw [List.getElem?_eq_getElem hlt]
    rfl
  · unfold handleDragEnd
    rw [if_pos hx]
  · unfold stackActiveNote stackNextNote stackActiveIndex stackNextIndex
    rw [h1]
    simp [Nat.mod_one]

/-- Witness for claim C8 on a concrete two-note day, cursor 5, a
leftward swipe of displacement 150. -/
theorem C8_stack_cursor_witness :
    stackActiveNote [noteA, noteC] 5 = [noteA, noteC][5 % 2]? ∧
    stackNextNote [noteA, noteC] 5 = [noteA, noteC][(5 + 1) % 2]? ∧
    (stackActiveNote [noteA, noteC] 5).isSome = true ∧
    (100 < (-150 : Int).natAbs → (handleDragEnd (-150) 5 0).1 = 5 + 1) ∧
    ([noteA, noteC].length = 1 →
        stackActiveNote [noteA, noteC] 5 = stackNextNote [noteA, noteC] 5) ∧
    stackActiveNote [] 5 = none :=
  C8_stack_cursor [noteA, noteC] 5 (-150) 0 (by decide)

/-- Claim C9 is false as stated: the "Keep It" button (and the
confirmation backdrop) runs only `setIsDeleteConfirmOpen(false)`; it
does not clear `actionNote`, so a pending target note remains after the
dismissal. -/
theorem C9_counterexample_target_retained :
    (keepDelete c9State).actionNote = some noteC ∧
    (keepDelete c9State).actionNote ≠ none ∧
    (keepDelete c9State).isDeleteConfirmOpen = false := by
  decide

/-- Claim C9, amended: choosing Keep, or dismissing the drawer or the
confirmation by their backdrops, closes the corresponding overlay and
performs no mutation of the note store — but the action target
reference is retained, not discarded; it is only overwritten by the
next long-press or cleared by a confirmed delete. -/
theorem C9_amended_dismiss_no_mutation (s : AppState) :
    (keepDelete s).notes = s.notes ∧
    (keepDelete s).isDeleteConfirmOpen = false ∧
    (keepDelete s).actionNote = s.actionNote ∧
    (dismissDrawer s).notes = s.notes ∧
    (dismissDrawer s).isDrawerOpen = false ∧
    (dismissDrawer s).actionNote = s.actionNote :=
  ⟨rfl, rfl, rfl, rfl, rfl, rfl⟩

end IdeaPops
